import Mathlib

/-!
Verification of the spark_exporter repository (src/spark_exporter.go) against
its natural-language specification.

The Go source is partially implemented: it declares the metric constructors,
the `Exporter` struct, the decoded record shapes (`ApplicationInfo`,
`ExecutorInfo`) and `main`, but the scrape pipeline bodies (`fetchHTTPApi`,
the decoder, `Collect`) are absent.  Definitions taken from the source carry
the source's names; definitions whose doc comment starts `Modelled from the
spec:` embed behavior the spec describes but the source does not implement.
-/

namespace SparkExporter

/-- Metric namespace constant. Source: `const namespace = "spark"` (line 18). -/
def sparkNamespace : String := "spark"

/-- Source: `executorLabelNames = []string\x7b"executor_id"\x7d` (line 22). -/
def executorLabelNames : List String := ["executor_id"]

/-- Source: `applicationLabelNames = []string\x7b"app_id"\x7d` (line 23). -/
def applicationLabelNames : List String := ["app_id"]

/-- Type of a prometheus instrument: `GaugeVec` or `CounterVec`. -/
inductive MetricType where
  | gauge
  | counter
deriving DecidableEq, Repr

/-- Descriptor of one prometheus instrument as created by the source's
constructors: its fully qualified name, help string, type, variable label
schema and constant labels. -/
structure InstrumentSpec where
  name : String
  help : String
  mtype : MetricType
  labelNames : List String
  constLabels : List (String × String)
deriving DecidableEq, Repr

/-- Prometheus builds the fully qualified metric name by joining namespace
and name with an underscore. -/
def fqName (ns n : String) : String := ns ++ "_" ++ n

/-- Source: `newGaugeExecutorMetrics` (lines 26-36): a GaugeVec in namespace
`spark`, name `executor_<metricName>`, labels `executorLabelNames`. -/
def newGaugeExecutorMetrics (metricName docString : String)
    (constLabels : List (String × String)) : InstrumentSpec :=
  { name := fqName sparkNamespace ("executor_" ++ metricName)
  , help := docString
  , mtype := .gauge
  , labelNames := executorLabelNames
  , constLabels := constLabels }

/-- Source: `newCounterExecutorMetrics` (lines 38-48): a CounterVec in
namespace `spark`, name `executor_<metricName>`, labels `executorLabelNames`. -/
def newCounterExecutorMetrics (metricName docString : String)
    (constLabels : List (String × String)) : InstrumentSpec :=
  { name := fqName sparkNamespace ("executor_" ++ metricName)
  , help := docString
  , mtype := .counter
  , labelNames := executorLabelNames
  , constLabels := constLabels }

/-- Source: `newApplicationMetrics` (lines 50-60): a GaugeVec in namespace
`spark`, name `application_<metricName>`, labels `applicationLabelNames`. -/
def newApplicationMetrics (metricName docString : String)
    (constLabels : List (String × String)) : InstrumentSpec :=
  { name := fqName sparkNamespace ("application_" ++ metricName)
  , help := docString
  , mtype := .gauge
  , labelNames := applicationLabelNames
  , constLabels := constLabels }

/-- Source: package-level `executorGaugeMetrics` (lines 63-65). -/
def executorGaugeMetrics : List InstrumentSpec :=
  [newGaugeExecutorMetrics "active_tasks" "Current number of active tasks" []]

/-- Source: package-level `executorCounterMetrics` (lines 66-68). -/
def executorCounterMetrics : List InstrumentSpec :=
  [newCounterExecutorMetrics "completedTasks" "Current number of active tasks" []]

/-- Source: the `up` gauge created in `NewExporter` (lines 93-97): namespace
`spark`, name `up`, no labels. -/
def upGauge : InstrumentSpec :=
  { name := fqName sparkNamespace "up"
  , help := "Was the last scrape to Spark successful."
  , mtype := .gauge
  , labelNames := []
  , constLabels := [] }

/-- Source: the anonymous attempt struct inside `ApplicationInfo.Attempts`
(lines 112-117). -/
structure AttemptInfo where
  Completed : Bool
  EndTime : String
  SparkUser : String
  StartTime : String
deriving DecidableEq, Repr

/-- Source: `ExecutorInfo` (lines 124-143).  The nested `ExecutorLogs` struct
is flattened into its two string fields. -/
structure ExecutorInfo where
  ActiveTasks : Int
  CompletedTasks : Int
  DiskUsed : Int
  Stderr : String
  Stdout : String
  FailedTasks : Int
  HostPort : String
  ID : String
  MaxMemory : Int
  MemoryUsed : Int
  RddBlocks : Int
  TotalDuration : Int
  TotalInputBytes : Int
  TotalShuffleRead : Int
  TotalShuffleWrite : Int
  TotalTasks : Int
deriving DecidableEq, Repr

/-- Source: `ApplicationInfo` (lines 111-121).  (The source's
`ClusterApplicationsInfo` and `ApplicationInfo` refer to the undefined names
`ApplicationMetrics`/`ExecutorMetrics`; the intended element types are
`ApplicationInfo`/`ExecutorInfo`.) -/
structure ApplicationInfo where
  Attempts : List AttemptInfo
  ID : String
  Name : String
  Executors : List ExecutorInfo
deriving DecidableEq, Repr

/-- Source: `ClusterApplicationsInfo` (lines 106-108). -/
structure ClusterApplicationsInfo where
  Applications : List ApplicationInfo
deriving DecidableEq, Repr

/-- Modelled from the spec: §7's error taxonomy for recoverable scrape
failures.  The source declares no error kinds (`fetchHTTPApi` and the decoder
are missing from src). -/
inductive ErrorKind where
  | Timeout
  | Unreachable
  | BadStatus
  | MalformedResponse
deriving DecidableEq, Repr

/-- Modelled from the spec: the undecoded executor shape seen by the
ResponseDecoder (§4.2), which is missing from src.  The required `id` field
may be absent (`none`); the remaining fields are modelled as already parsed,
since no claim concerns numeric parse failures. -/
structure RawExecutor where
  ID : Option String := none
  ActiveTasks : Int := 0
  CompletedTasks : Int := 0
  DiskUsed : Int := 0
  Stderr : String := ""
  Stdout : String := ""
  FailedTasks : Int := 0
  HostPort : String := ""
  MaxMemory : Int := 0
  MemoryUsed : Int := 0
  RddBlocks : Int := 0
  TotalDuration : Int := 0
  TotalInputBytes : Int := 0
  TotalShuffleRead : Int := 0
  TotalShuffleWrite : Int := 0
  TotalTasks : Int := 0
deriving DecidableEq, Repr

/-- Modelled from the spec: the undecoded application shape seen by the
ResponseDecoder (§4.2).  The required `id` field may be absent. -/
structure RawApplication where
  ID : Option String := none
  Name : String := ""
  Attempts : List AttemptInfo := []
  Executors : List RawExecutor := []
deriving DecidableEq, Repr

/-- Modelled from the spec: decoding one executor record; a missing required
`id` fails with `MalformedResponse` (§4.2). -/
def decodeExecutor (r : RawExecutor) : Except ErrorKind ExecutorInfo :=
  match r.ID with
  | none => .error .MalformedResponse
  | some i =>
    .ok { ActiveTasks := r.ActiveTasks
        , CompletedTasks := r.CompletedTasks
        , DiskUsed := r.DiskUsed
        , Stderr := r.Stderr
        , Stdout := r.Stdout
        , FailedTasks := r.FailedTasks
        , HostPort := r.HostPort
        , ID := i
        , MaxMemory := r.MaxMemory
        , MemoryUsed := r.MemoryUsed
        , RddBlocks := r.RddBlocks
        , TotalDuration := r.TotalDuration
        , TotalInputBytes := r.TotalInputBytes
        , TotalShuffleRead := r.TotalShuffleRead
        , TotalShuffleWrite := r.TotalShuffleWrite
        , TotalTasks := r.TotalTasks }

/-- Modelled from the spec: decoding an executor list; any failure fails the
whole decode and no partial list is produced (§4.2). -/
def decodeExecutors : List RawExecutor → Except ErrorKind (List ExecutorInfo)
  | [] => .ok []
  | r :: rest =>
    match decodeExecutor r with
    | .error k => .error k
    | .ok e =>
      match decodeExecutors rest with
      | .error k => .error k
      | .ok es => .ok (e :: es)

/-- Modelled from the spec: decoding one application record; a missing
required application `id` or any failing executor fails the decode (§4.2). -/
def decodeApplication (a : RawApplication) : Except ErrorKind ApplicationInfo :=
  match a.ID with
  | none => .error .MalformedResponse
  | some i =>
    match decodeExecutors a.Executors with
    | .error k => .error k
    | .ok es =>
      .ok { Attempts := a.Attempts, ID := i, Name := a.Name, Executors := es }

/-- Modelled from the spec: `ResponseDecoder.Decode` (§4.2), missing from src.
Decodes the whole response; any failure fails the whole decode with
`MalformedResponse` and emits no records. -/
def decode : List RawApplication → Except ErrorKind (List ApplicationInfo)
  | [] => .ok []
  | a :: rest =>
    match decodeApplication a with
    | .error k => .error k
    | .ok r =>
      match decode rest with
      | .error k => .error k
      | .ok rs => .ok (r :: rs)

/-- Modelled from the spec: the MetricRegistry's mutable value state (§4.3),
missing from src: the unlabeled `up` gauge value and, for each executor
instrument, the current label-value mapping keyed by `executor_id`. -/
structure Registry where
  up : Int
  activeTasks : List (String × Int)
  completedTasks : List (String × Int)
deriving DecidableEq, Repr

/-- The empty registry a fresh process starts from (§6: every restart starts
from an empty MetricRegistry and an `up` gauge of zero value). -/
def regInit : Registry := { up := 0, activeTasks := [], completedTasks := [] }

/-- All executors of a decoded response, in order. -/
def executorsOf (recs : List ApplicationInfo) : List ExecutorInfo :=
  recs.flatMap (fun a => a.Executors)

/-- The fresh `active_tasks` label-value mapping built from one decoded
response (§6 mapping: `activeTasks` keyed by `executor_id`). -/
def scrapeActiveTasks (recs : List ApplicationInfo) : List (String × Int) :=
  (executorsOf recs).map (fun e => (e.ID, e.ActiveTasks))

/-- The fresh `completedTasks` label-value mapping built from one decoded
response (§6 mapping: `completedTasks` keyed by `executor_id`). -/
def scrapeCompletedTasks (recs : List ApplicationInfo) : List (String × Int) :=
  (executorsOf recs).map (fun e => (e.ID, e.CompletedTasks))

/-- The result of one upstream fetch: a (already tokenised) response body, or
a typed failure. -/
abbrev FetchRes := Except ErrorKind (List RawApplication)

/-- Whether one scrape (fetch and decode) succeeded. -/
def scrapeSuccess : FetchRes → Bool
  | .error _ => false
  | .ok raw =>
    match decode raw with
    | .ok _ => true
    | .error _ => false

/-- Modelled from the spec: one `Collect()` cycle of the ScrapeCoordinator
(§4.4), missing from src.  On fetch or decode failure, set `up` to 0 and
leave every other instrument at its last-known value (freeze-on-error); on
success, set `up` to 1 and replace — never merge — each executor instrument's
whole label-value mapping with the one built from this response (§4.3). -/
def collect (fr : FetchRes) (reg : Registry) : Registry :=
  match fr with
  | .error _ => { reg with up := 0 }
  | .ok raw =>
    match decode raw with
    | .error _ => { reg with up := 0 }
    | .ok recs =>
      { up := 1
      , activeTasks := scrapeActiveTasks recs
      , completedTasks := scrapeCompletedTasks recs }

/-- Number of entries of an instrument's label-value mapping carrying the
label value `k`. -/
def countKey (l : List (String × Int)) (k : String) : Nat :=
  (l.filter (fun p => p.1 == k)).length

/-- Modelled from the spec: the network's behavior towards one GET request —
either the connection attempt fails after some latency, or the server replies
with a status code and a body after some latency.  Needed because
`fetchHTTPApi` (src lines 101-103) is an empty stub. -/
inductive NetBehavior where
  | refused (latencyMs : Nat)
  | reply (status : Nat) (latencyMs : Nat) (body : List RawApplication)
deriving Repr

/-- Latency of the network behavior. -/
def netLatency : NetBehavior → Nat
  | .refused l => l
  | .reply _ l _ => l

/-- Modelled from the spec: `UpstreamClient.Fetch` (§4.1); `fetchHTTPApi` in
src is an empty stub.  The request is bounded by the configured timeout and
fails with `Timeout` if exceeded, `Unreachable` if the connection fails, and
`BadStatus` if the HTTP status is not successful (non-2xx); otherwise the
body is returned. -/
def fetchHTTPApi (timeoutMs : Nat) (net : NetBehavior) : FetchRes :=
  match net with
  | .refused l =>
    if timeoutMs < l then .error .Timeout else .error .Unreachable
  | .reply status l body =>
    if timeoutMs < l then .error .Timeout
    else if 200 ≤ status ∧ status < 300 then .ok body
    else .error .BadStatus

/-- How long the caller of `fetchHTTPApi` blocks: until the network answers
or the timeout fires, whichever is first. -/
def fetchBlockingMs (timeoutMs : Nat) (net : NetBehavior) : Nat :=
  min (netLatency net) timeoutMs

/-- Source: the `Exporter` struct (lines 73-79).  The `fetch` closure is
represented by the timeout it captures; the `sync.RWMutex` is modelled by the
lock of `SysState` below. -/
structure Exporter where
  URI : String
  timeoutMs : Nat
  up : InstrumentSpec
deriving Repr

/-- Source: `NewExporter` (lines 81-99).  `url.Parse` is abstracted as a
`parseURI` argument; if it returns an error, `NewExporter` returns that error
and no exporter, otherwise it returns the exporter with its `up` gauge. -/
def NewExporter (parseURI : String → Except String Unit) (uri : String)
    (timeoutMs : Nat) : Except String Exporter :=
  match parseURI uri with
  | .error e => .error e
  | .ok _ => .ok { URI := uri, timeoutMs := timeoutMs, up := upGauge }

/-- One second, in the millisecond unit used for durations here. -/
def secondMs : Nat := 1000

/-- The command-line configuration surface of `main` (lines 146-151). -/
structure Flags where
  listenAddress : String
  metricsPath : String
  sparkApplicationURI : String
  sparkTimeoutMs : Nat
deriving DecidableEq, Repr

/-- Source: the default flag values declared in `main` (lines 146-151). -/
def defaultFlags : Flags :=
  { listenAddress := ":9110"
  , metricsPath := "/metrics"
  , sparkApplicationURI := "http://localhost:4040"
  , sparkTimeoutMs := 5 * secondMs }

/-- Outcome of process startup: whether the process exited fatally (and with
which code and diagnostic), and whether the HTTP listener was started. -/
structure MainResult where
  exitCode : Option Nat
  diagnostic : Option String
  listenerStarted : Bool
deriving Repr

/-- Source: the startup control flow of `main` (lines 145-176).  If
`NewExporter` fails, `log.Fatal(err)` prints the diagnostic and exits the
process with status 1 before `http.ListenAndServe` is ever reached;
otherwise the collectors are registered and the listener starts. -/
def mainModel (parseURI : String → Except String Unit) (flags : Flags) :
    MainResult :=
  match NewExporter parseURI flags.sparkApplicationURI flags.sparkTimeoutMs with
  | .error e =>
    { exitCode := some 1, diagnostic := some e, listenerStarted := false }
  | .ok _ =>
    { exitCode := none, diagnostic := none, listenerStarted := true }

/-- The new `active_tasks` mapping one scrape installs: on failure the old
mapping is kept, on success the freshly built mapping replaces it. -/
def collectActive (fr : FetchRes) (old : List (String × Int)) :
    List (String × Int) :=
  match fr with
  | .error _ => old
  | .ok raw =>
    match decode raw with
    | .error _ => old
    | .ok recs => scrapeActiveTasks recs

/-- The new `completedTasks` mapping one scrape installs. -/
def collectCompleted (fr : FetchRes) (old : List (String × Int)) :
    List (String × Int) :=
  match fr with
  | .error _ => old
  | .ok raw =>
    match decode raw with
    | .error _ => old
    | .ok recs => scrapeCompletedTasks recs

/-- The `up` value one scrape installs. -/
def collectUp (fr : FetchRes) : Int :=
  if scrapeSuccess fr then 1 else 0

/-- Progress of the writer currently holding the write lock: which of its
three per-instrument writes it has already performed. -/
inductive Phase where
  | locked
  | wroteActive
  | wroteCompleted
  | wroteUp
deriving DecidableEq, Repr

/-- Modelled from the spec: the shared state seen by concurrent `Collect()`
writers and snapshot readers (§4.3/§5); the source only declares the
`sync.RWMutex` field.  `cur = some (fr, ph)` means a writer holds the
write lock and has reached phase `ph` of its three per-instrument writes;
`completed` lists the scrapes already applied in full, in completion order. -/
structure SysState where
  reg : Registry
  completed : List FetchRes
  cur : Option (FetchRes × Phase)
deriving Repr

/-- The initial shared state over a given registry: lock free, no scrape
applied yet. -/
def initState (reg0 : Registry) : SysState :=
  { reg := reg0, completed := [], cur := none }

/-- Atomic actions of the concurrency model: a writer acquires the write
lock with its fetched-and-decoded result in hand (fetch happens outside the
lock, §5), performs its three field writes one at a time, releases; a reader
takes a snapshot, which the RWMutex only admits while no writer holds the
lock. -/
inductive Action where
  | beginScrape (fr : FetchRes)
  | writeActive
  | writeCompleted
  | writeUp
  | endScrape
  | read
deriving Repr

/-- Modelled from the spec: one atomic step of the shared-state machine.
`none` means the action is not enabled in this state (the lock blocks it). -/
def step (s : SysState) : Action → Option SysState
  | .beginScrape fr =>
    match s.cur with
    | none => some { s with cur := some (fr, .locked) }
    | some _ => none
  | .writeActive =>
    match s.cur with
    | some (fr, .locked) =>
      some { s with
             reg := { s.reg with
                      activeTasks := collectActive fr s.reg.activeTasks }
           , cur := some (fr, .wroteActive) }
    | _ => none
  | .writeCompleted =>
    match s.cur with
    | some (fr, .wroteActive) =>
      some { s with
             reg := { s.reg with
                      completedTasks := collectCompleted fr s.reg.completedTasks }
           , cur := some (fr, .wroteCompleted) }
    | _ => none
  | .writeUp =>
    match s.cur with
    | some (fr, .wroteCompleted) =>
      some { s with
             reg := { s.reg with up := collectUp fr }
           , cur := some (fr, .wroteUp) }
    | _ => none
  | .endScrape =>
    match s.cur with
    | some (fr, .wroteUp) =>
      some { s with completed := s.completed ++ [fr], cur := none }
    | _ => none
  | .read =>
    match s.cur with
    | none => some s
    | some _ => none

/-- Run a sequence of atomic actions from a state; `none` if any action is
taken while not enabled. -/
def runTrace (s : SysState) : List Action → Option SysState
  | [] => some s
  | a :: rest =>
    match step s a with
    | none => none
    | some s2 => runTrace s2 rest

/-- The registry state after applying a sequence of whole scrapes in order. -/
def runScrapes (reg0 : Registry) (frs : List FetchRes) : Registry :=
  frs.foldl (fun r fr => collect fr r) reg0

/-- Invariant of the shared-state machine: when the write lock is free, the
registry is exactly the result of the completed scrapes; while a writer is in
its critical section the registry is the completed state with that writer's
writes applied up to its phase. -/
def stateInv (reg0 : Registry) (s : SysState) : Prop :=
  match s.cur with
  | none => s.reg = runScrapes reg0 s.completed
  | some (_, .locked) => s.reg = runScrapes reg0 s.completed
  | some (fr, .wroteActive) =>
    s.reg = { runScrapes reg0 s.completed with
              activeTasks :=
                collectActive fr (runScrapes reg0 s.completed).activeTasks }
  | some (fr, .wroteCompleted) =>
    s.reg = { runScrapes reg0 s.completed with
              activeTasks :=
                collectActive fr (runScrapes reg0 s.completed).activeTasks
            , completedTasks :=
                collectCompleted fr (runScrapes reg0 s.completed).completedTasks }
  | some (fr, .wroteUp) => s.reg = collect fr (runScrapes reg0 s.completed)

/-- A concrete well-formed upstream response: one application with two
executors, `activeTasks` 3 and 0, `completedTasks` 10 and 5 (the end-to-end
example of §8). -/
def rawGood : List RawApplication :=
  [{ ID := some "app-1"
   , Name := "demo"
   , Executors :=
       [{ ID := some "1", ActiveTasks := 3, CompletedTasks := 10 }
       , { ID := some "2", ActiveTasks := 0, CompletedTasks := 5 }] }]

/-- The decoded form of `rawGood`. -/
def recsGood : List ApplicationInfo :=
  [{ Attempts := []
   , ID := "app-1"
   , Name := "demo"
   , Executors :=
       [{ ActiveTasks := 3, CompletedTasks := 10, DiskUsed := 0, Stderr := ""
        , Stdout := "", FailedTasks := 0, HostPort := "", ID := "1"
        , MaxMemory := 0, MemoryUsed := 0, RddBlocks := 0, TotalDuration := 0
        , TotalInputBytes := 0, TotalShuffleRead := 0, TotalShuffleWrite := 0
        , TotalTasks := 0 }
       , { ActiveTasks := 0, CompletedTasks := 5, DiskUsed := 0, Stderr := ""
         , Stdout := "", FailedTasks := 0, HostPort := "", ID := "2"
         , MaxMemory := 0, MemoryUsed := 0, RddBlocks := 0, TotalDuration := 0
         , TotalInputBytes := 0, TotalShuffleRead := 0, TotalShuffleWrite := 0
         , TotalTasks := 0 }] }]

/-- A concrete malformed upstream response: its single executor record lacks
the required `id` field. -/
def rawBad : List RawApplication :=
  [{ ID := some "app-1", Executors := [{ ActiveTasks := 3 }] }]

/-- A concrete interleaving: one full scrape of `rawGood` followed by a
reader's snapshot. -/
def traceDemo : List Action :=
  [Action.beginScrape (.ok rawGood), Action.writeActive,
   Action.writeCompleted, Action.writeUp, Action.endScrape]

/-- The shared state reached by `traceDemo` from the empty registry. -/
def sDemo : SysState :=
  { reg := collect (.ok rawGood) regInit
  , completed := [.ok rawGood]
  , cur := none }

/-- A `parseURI` stand-in that accepts every URI. -/
def parseOkDemo : String → Except String Unit := fun _ => .ok ()

/-- A `parseURI` stand-in for an unparseable URI. -/
def parseFailDemo : String → Except String Unit := fun _ => .error "invalid URI"

/-- The exporter `NewExporter` builds for the default URI and timeout. -/
def exporterDemo : Exporter :=
  { URI := "http://localhost:4040", timeoutMs := 5000, up := upGauge }

/-- Counting entries of a per-executor mapping at one label value is counting
that executor id among the response's executor ids. -/
lemma countKey_map (exs : List ExecutorInfo) (f : ExecutorInfo → Int)
    (k : String) :
    countKey (exs.map (fun e => (e.ID, f e))) k =
      List.count k (exs.map (fun e => e.ID)) := by
  simp only [countKey, ← List.countP_eq_length_filter, List.countP_map,
    List.count]
  rfl

/-- `decodeExecutor` fails only with `MalformedResponse`. -/
lemma decodeExecutor_error_eq {r : RawExecutor} {k : ErrorKind}
    (h : decodeExecutor r = .error k) : k = .MalformedResponse := by
  unfold decodeExecutor at h
  cases hid : r.ID <;> rw [hid] at h <;> simp_all

/-- `decodeExecutors` fails only with `MalformedResponse`. -/
lemma decodeExecutors_error_eq {exs : List RawExecutor} {k : ErrorKind}
    (h : decodeExecutors exs = .error k) : k = .MalformedResponse := by
  induction exs with
  | nil => simp [decodeExecutors] at h
  | cons r rest ih =>
    unfold decodeExecutors at h
    cases hr : decodeExecutor r <;> rw [hr] at h
    · cases h; exact decodeExecutor_error_eq hr
    · cases hrest : decodeExecutors rest <;> rw [hrest] at h
      · cases h; exact ih hrest
      · cases h

/-- `decodeApplication` fails only with `MalformedResponse`. -/
lemma decodeApplication_error_eq {a : RawApplication} {k : ErrorKind}
    (h : decodeApplication a = .error k) : k = .MalformedResponse := by
  unfold decodeApplication at h
  cases hid : a.ID <;> rw [hid] at h
  · cases h; rfl
  · cases hx : decodeExecutors a.Executors <;> rw [hx] at h
    · cases h; exact decodeExecutors_error_eq hx
    · cases h

/-- A missing executor `id` anywhere in the list fails the whole executor
decode with `MalformedResponse`. -/
lemma decodeExecutors_error_of_mem {exs : List RawExecutor} {e : RawExecutor}
    (he : e ∈ exs) (hid : e.ID = none) :
    decodeExecutors exs = .error .MalformedResponse := by
  induction exs with
  | nil => cases he
  | cons r rest ih =>
    cases he with
    | head => simp [decodeExecutors, decodeExecutor, hid]
    | tail _ hmem =>
      cases hr : decodeExecutor r with
      | error k =>
        simp [decodeExecutors, hr, decodeExecutor_error_eq hr]
      | ok ev => simp [decodeExecutors, hr, ih hmem]

/-- A missing required field in an application (its own `id` or an
executor's) fails that application's decode with `MalformedResponse`. -/
lemma decodeApplication_error_of_missing {a : RawApplication}
    (h : a.ID = none ∨ ∃ e ∈ a.Executors, e.ID = none) :
    decodeApplication a = .error .MalformedResponse := by
  cases h with
  | inl hid => simp [decodeApplication, hid]
  | inr hex =>
    obtain ⟨e, hmem, hid⟩ := hex
    cases ha : a.ID with
    | none => simp [decodeApplication, ha]
    | some i =>
      simp [decodeApplication, ha, decodeExecutors_error_of_mem hmem hid]

/-- A missing required field anywhere in the response fails the whole decode
with `MalformedResponse`. -/
lemma decode_error_of_missing {raw : List RawApplication}
    (h : ∃ a ∈ raw, a.ID = none ∨ ∃ e ∈ a.Executors, e.ID = none) :
    decode raw = .error .MalformedResponse := by
  induction raw with
  | nil => obtain ⟨a, ha, _⟩ := h; cases ha
  | cons a rest ih =>
    obtain ⟨b, hb, hbad⟩ := h
    cases hb with
    | head =>
      simp [decode, decodeApplication_error_of_missing hbad]
    | tail _ hmem =>
      cases hap : decodeApplication a with
      | error k =>
        simp [decode, hap, decodeApplication_error_eq hap]
      | ok r =>
        simp [decode, hap, ih ⟨b, hmem, hbad⟩]

/-- `collect` is the per-field writes `collectActive`, `collectCompleted`
and `collectUp` performed together. -/
lemma collect_decompose (fr : FetchRes) (reg : Registry) :
    collect fr reg =
      { up := collectUp fr
      , activeTasks := collectActive fr reg.activeTasks
      , completedTasks := collectCompleted fr reg.completedTasks } := by
  cases fr with
  | error k => rfl
  | ok raw =>
    cases hd : decode raw with
    | error k =>
      simp [collect, collectActive, collectCompleted, collectUp,
        scrapeSuccess, hd]
    | ok recs =>
      simp [collect, collectActive, collectCompleted, collectUp,
        scrapeSuccess, hd]

/-- Appending one more completed scrape folds as one more `collect`. -/
lemma runScrapes_append (reg0 : Registry) (frs : List FetchRes)
    (fr : FetchRes) :
    runScrapes reg0 (frs ++ [fr]) = collect fr (runScrapes reg0 frs) := by
  simp [runScrapes, List.foldl_append]

/-- Every enabled step preserves the shared-state invariant. -/
lemma step_preserves_inv {reg0 : Registry} {s s2 : SysState} {a : Action}
    (hinv : stateInv reg0 s) (hstep : step s a = some s2) :
    stateInv reg0 s2 := by
  cases a with
  | beginScrape fr =>
    unfold step at hstep
    cases hc : s.cur <;> rw [hc] at hstep
    · cases hstep
      simp only [stateInv, hc] at hinv
      simpa [stateInv] using hinv
    · cases hstep
  | writeActive =>
    unfold step at hstep
    match hc : s.cur with
    | none => rw [hc] at hstep; cases hstep
    | some (fr, .locked) =>
      rw [hc] at hstep; cases hstep
      simp only [stateInv, hc] at hinv
      simp [stateInv, hinv]
    | some (fr, .wroteActive) => rw [hc] at hstep; cases hstep
    | some (fr, .wroteCompleted) => rw [hc] at hstep; cases hstep
    | some (fr, .wroteUp) => rw [hc] at hstep; cases hstep
  | writeCompleted =>
    unfold step at hstep
    match hc : s.cur with
    | none => rw [hc] at hstep; cases hstep
    | some (fr, .locked) => rw [hc] at hstep; cases hstep
    | some (fr, .wroteActive) =>
      rw [hc] at hstep; cases hstep
      simp only [stateInv, hc] at hinv
      simp [stateInv, hinv]
    | some (fr, .wroteCompleted) => rw [hc] at hstep; cases hstep
    | some (fr, .wroteUp) => rw [hc] at hstep; cases hstep
  | writeUp =>
    unfold step at hstep
    match hc : s.cur with
    | none => rw [hc] at hstep; cases hstep
    | some (fr, .locked) => rw [hc] at hstep; cases hstep
    | some (fr, .wroteActive) => rw [hc] at hstep; cases hstep
    | some (fr, .wroteCompleted) =>
      rw [hc] at hstep; cases hstep
      simp only [stateInv, hc] at hinv
      simp [stateInv, hinv, collect_decompose]
    | some (fr, .wroteUp) => rw [hc] at hstep; cases hstep
  | endScrape =>
    unfold step at hstep
    match hc : s.cur with
    | none => rw [hc] at hstep; cases hstep
    | some (fr, .locked) => rw [hc] at hstep; cases hstep
    | some (fr, .wroteActive) => rw [hc] at hstep; cases hstep
    | some (fr, .wroteCompleted) => rw [hc] at hstep; cases hstep
    | some (fr, .wroteUp) =>
      rw [hc] at hstep; cases hstep
      simp only [stateInv, hc] at hinv
      simp [stateInv, hinv, runScrapes_append]
  | read =>
    unfold step at hstep
    cases hc : s.cur <;> rw [hc] at hstep
    · cases hstep; exact hinv
    · cases hstep

/-- Running a whole trace preserves the shared-state invariant. -/
lemma runTrace_preserves_inv {reg0 : Registry} (tr : List Action) :
    ∀ s s2, stateInv reg0 s → runTrace s tr = some s2 → stateInv reg0 s2 := by
  induction tr with
  | nil =>
    intro s s2 h hr
    cases hr; exact h
  | cons a rest ih =>
    intro s s2 h hr
    unfold runTrace at hr
    cases hs : step s a <;> rw [hs] at hr
    · cases hr
    · exact ih _ s2 (step_preserves_inv h hs) hr

/-- Traces compose by sequencing. -/
lemma runTrace_append (l l2 : List Action) :
    ∀ s, runTrace s (l ++ l2) =
      match runTrace s l with
      | none => none
      | some m => runTrace m l2 := by
  induction l with
  | nil => intro s; rfl
  | cons a rest ih =>
    intro s
    simp only [List.cons_append, runTrace]
    cases hs : step s a with
    | none => rfl
    | some m => exact ih m

/-- Claim C1: after Collect() over a valid decoded response, each executor
present in the response has exactly one label-value entry in the
`active_tasks` and `completedTasks` instruments, and no entry exists for any
executor absent from the response, regardless of what entries previous
scrapes created: the registry replaces, never merges, each instrument's
label-value mapping per scrape. -/
theorem collect_replaces_per_scrape (raw : List RawApplication)
    (recs : List ApplicationInfo) (reg : Registry) (eid : String)
    (h : decode raw = .ok recs)
    (hnodup : ((executorsOf recs).map (fun e => e.ID)).Nodup) :
    countKey (collect (.ok raw) reg).activeTasks eid =
      (if eid ∈ (executorsOf recs).map (fun e => e.ID) then 1 else 0) ∧
    countKey (collect (.ok raw) reg).completedTasks eid =
      (if eid ∈ (executorsOf recs).map (fun e => e.ID) then 1 else 0) := by
  have hact : (collect (.ok raw) reg).activeTasks = scrapeActiveTasks recs := by
    simp [collect, h]
  have hcmp : (collect (.ok raw) reg).completedTasks =
      scrapeCompletedTasks recs := by
    simp [collect, h]
  rw [hact, hcmp]
  unfold scrapeActiveTasks scrapeCompletedTasks
  rw [countKey_map, countKey_map]
  exact ⟨List.count_eq_of_nodup hnodup, List.count_eq_of_nodup hnodup⟩

/-- Witness for C1 at the concrete two-executor response `rawGood`, over a
registry in its initial state. -/
theorem collect_replaces_per_scrape_witness :
    decode rawGood = .ok recsGood ∧
    ((executorsOf recsGood).map (fun e => e.ID)).Nodup ∧
    countKey (collect (.ok rawGood) regInit).activeTasks "1" =
      (if "1" ∈ (executorsOf recsGood).map (fun e => e.ID) then 1 else 0) :=
  ⟨rfl, by decide,
    (collect_replaces_per_scrape rawGood recsGood regInit "1" rfl
      (by decide)).1⟩

/-- Claim C2: the exporter exposes an unlabeled gauge named `spark_up` whose
value after every Collect() is 1 if that scrape (fetch and decode) succeeded
and 0 otherwise. -/
theorem up_gauge_reports_scrape_health
    (parseURI : String → Except String Unit) (uri : String) (t : Nat)
    (ex : Exporter) (h : NewExporter parseURI uri t = .ok ex) :
    ex.up.name = "spark_up" ∧ ex.up.labelNames = [] ∧
    ex.up.mtype = MetricType.gauge ∧
    ∀ fr reg, (collect fr reg).up = (if scrapeSuccess fr then 1 else 0) := by
  have hup : ex.up = upGauge := by
    unfold NewExporter at h
    cases hp : parseURI uri <;> rw [hp] at h
    · cases h
    · cases h; rfl
  refine ⟨by rw [hup]; rfl, by rw [hup]; rfl, by rw [hup]; rfl, ?_⟩
  intro fr reg
  cases fr with
  | error k => simp [collect, scrapeSuccess]
  | ok raw =>
    cases hd : decode raw with
    | error k => simp [collect, scrapeSuccess, hd]
    | ok recs => simp [collect, scrapeSuccess, hd]

/-- Witness for C2: the exporter built over the default URI carries the
`spark_up` gauge, and a successful concrete scrape drives it to 1. -/
theorem up_gauge_reports_scrape_health_witness :
    NewExporter parseOkDemo "http://localhost:4040" 5000 = .ok exporterDemo ∧
    exporterDemo.up.name = "spark_up" ∧
    (collect (.ok rawGood) regInit).up =
      (if scrapeSuccess (.ok rawGood) then 1 else 0) :=
  ⟨rfl,
   (up_gauge_reports_scrape_health parseOkDemo "http://localhost:4040" 5000
     exporterDemo rfl).1,
   (up_gauge_reports_scrape_health parseOkDemo "http://localhost:4040" 5000
     exporterDemo rfl).2.2.2 (.ok rawGood) regInit⟩

/-- Claim C3: in every interleaving of concurrent Collect() writers and
snapshot readers admitted by the write lock, a reader's snapshot is the
registry after a whole number of complete scrapes — never a label set from
one cycle mixed with values from another. -/
theorem read_isolation_under_concurrent_collect (reg0 : Registry)
    (tr : List Action) (s : SysState)
    (h : runTrace (initState reg0) (tr ++ [Action.read]) = some s) :
    s.reg = runScrapes reg0 s.completed := by
  rw [runTrace_append] at h
  cases hm : runTrace (initState reg0) tr <;> rw [hm] at h
  · cases h
  · rename_i m
    have hminv : stateInv reg0 m :=
      runTrace_preserves_inv tr (initState reg0) m
        (by simp [stateInv, initState, runScrapes]) hm
    cases hc : m.cur with
    | none =>
      have hread : step m .read = some m := by simp [step, hc]
      simp only [runTrace, hread] at h
      cases h
      simpa only [stateInv, hc] using hminv
    | some w =>
      have hread : step m .read = none := by simp [step, hc]
      simp only [runTrace, hread] at h
      exact Option.noConfusion h

/-- Witness for C3: one full scrape of `rawGood` followed by a read; the
snapshot equals the one-scrape registry state. -/
theorem read_isolation_under_concurrent_collect_witness :
    runTrace (initState regInit) (traceDemo ++ [Action.read]) = some sDemo ∧
    sDemo.reg = runScrapes regInit sDemo.completed :=
  ⟨rfl, read_isolation_under_concurrent_collect regInit traceDemo sDemo rfl⟩

/-- Claim C4: a Collect() whose upstream fetch times out leaves `up` at 0
and adds, removes and changes no other instrument value — freeze-on-error,
not clear-on-error. -/
theorem fetch_timeout_freezes_registry (t : Nat) (net : NetBehavior)
    (reg : Registry) (h : fetchHTTPApi t net = .error .Timeout) :
    (collect (fetchHTTPApi t net) reg).up = 0 ∧
    (collect (fetchHTTPApi t net) reg).activeTasks = reg.activeTasks ∧
    (collect (fetchHTTPApi t net) reg).completedTasks = reg.completedTasks := by
  rw [h]
  exact ⟨rfl, rfl, rfl⟩

/-- Witness for C4: a fetch against a 5 s timeout whose reply would take 6 s
times out and freezes the registry. -/
theorem fetch_timeout_freezes_registry_witness :
    fetchHTTPApi 5000 (NetBehavior.refused 6000) = .error .Timeout ∧
    (collect (fetchHTTPApi 5000 (NetBehavior.refused 6000)) regInit).up = 0 :=
  ⟨rfl, (fetch_timeout_freezes_registry 5000 (NetBehavior.refused 6000)
    regInit rfl).1⟩

/-- Claim C5: a response in which a required field (application id or
executor id) is missing fails the decode as a whole with
`MalformedResponse`, and Collect() over it adds no records to the registry —
partial records are never produced. -/
theorem decode_missing_id_fails_whole (raw : List RawApplication)
    (reg : Registry)
    (h : ∃ a ∈ raw, a.ID = none ∨ ∃ e ∈ a.Executors, e.ID = none) :
    decode raw = .error .MalformedResponse ∧
    (collect (.ok raw) reg).up = 0 ∧
    (collect (.ok raw) reg).activeTasks = reg.activeTasks ∧
    (collect (.ok raw) reg).completedTasks = reg.completedTasks := by
  have hd := decode_error_of_missing h
  refine ⟨hd, ?_, ?_, ?_⟩ <;> simp [collect, hd]

/-- Witness for C5 at the concrete response `rawBad`, whose only executor
record lacks its `id`. -/
theorem decode_missing_id_fails_whole_witness :
    (∃ a ∈ rawBad, a.ID = none ∨ ∃ e ∈ a.Executors, e.ID = none) ∧
    decode rawBad = .error .MalformedResponse :=
  ⟨by decide, (decode_missing_id_fails_whole rawBad regInit (by decide)).1⟩

/-- Claim C6: every Fetch() either returns a readable body or fails with
exactly one of `Timeout`, `Unreachable` or `BadStatus`, and the caller never
blocks longer than the configured timeout. -/
theorem fetch_result_taxonomy (t : Nat) (net : NetBehavior) :
    ((∃ body, fetchHTTPApi t net = .ok body) ∨
      fetchHTTPApi t net = .error .Timeout ∨
      fetchHTTPApi t net = .error .Unreachable ∨
      fetchHTTPApi t net = .error .BadStatus) ∧
    fetchBlockingMs t net ≤ t := by
  constructor
  · cases net with
    | refused l =>
      by_cases hto : t < l
      · exact .inr (.inl (by simp [fetchHTTPApi, hto]))
      · exact .inr (.inr (.inl (by simp [fetchHTTPApi, hto])))
    | reply st l body =>
      by_cases hto : t < l
      · exact .inr (.inl (by simp [fetchHTTPApi, hto]))
      · by_cases hok : 200 ≤ st ∧ st < 300
        · exact .inl ⟨body, by simp [fetchHTTPApi, hto, hok]⟩
        · exact .inr (.inr (.inr (by simp [fetchHTTPApi, hto, hok])))
  · exact min_le_right _ _

/-- Claim C7: construction registers the fixed instrument set — one
executor-labeled gauge `active_tasks`, one executor-labeled counter
`completedTasks` — and every application-scoped gauge the application
constructor can build is a gauge labeled by `app_id`; each constructor fixes
its instrument's label-key schema. -/
theorem construction_time_instruments :
    executorGaugeMetrics =
      [{ name := "spark_executor_active_tasks"
       , help := "Current number of active tasks"
       , mtype := MetricType.gauge
       , labelNames := ["executor_id"]
       , constLabels := [] }] ∧
    executorCounterMetrics =
      [{ name := "spark_executor_completedTasks"
       , help := "Current number of active tasks"
       , mtype := MetricType.counter
       , labelNames := ["executor_id"]
       , constLabels := [] }] ∧
    (∀ n d c, (newApplicationMetrics n d c).labelNames = ["app_id"] ∧
      (newApplicationMetrics n d c).mtype = MetricType.gauge) ∧
    (∀ n d c, (newGaugeExecutorMetrics n d c).labelNames = ["executor_id"]) ∧
    (∀ n d c, (newCounterExecutorMetrics n d c).labelNames = ["executor_id"]) :=
  ⟨by decide, by decide, fun n d c => ⟨rfl, rfl⟩, fun n d c => rfl,
   fun n d c => rfl⟩

/-- Claim C8: Collect() is idempotent with respect to a fixed upstream
response — running it twice on an unchanged response yields the identical
snapshot both times. -/
theorem collect_idempotent (fr : FetchRes) (reg : Registry) :
    collect fr (collect fr reg) = collect fr reg := by
  cases fr with
  | error k => rfl
  | ok raw =>
    cases hd : decode raw with
    | error k => simp [collect, hd]
    | ok recs => simp [collect, hd]

/-- Claim C9: an unparseable upstream URI makes `NewExporter` return the
parse error, and the process then exits with a non-zero status and a
diagnostic before the HTTP listener ever starts. -/
theorem bad_uri_fatal_before_listen (parseURI : String → Except String Unit)
    (flags : Flags) (e : String)
    (h : parseURI flags.sparkApplicationURI = .error e) :
    NewExporter parseURI flags.sparkApplicationURI flags.sparkTimeoutMs =
      .error e ∧
    (mainModel parseURI flags).exitCode = some 1 ∧
    (mainModel parseURI flags).listenerStarted = false ∧
    (mainModel parseURI flags).diagnostic = some e := by
  have hne : NewExporter parseURI flags.sparkApplicationURI
      flags.sparkTimeoutMs = .error e := by
    unfold NewExporter
    rw [h]
  refine ⟨hne, ?_, ?_, ?_⟩ <;> simp [mainModel, hne]

/-- Witness for C9 with a `url.Parse` stand-in that rejects the default
URI. -/
theorem bad_uri_fatal_before_listen_witness :
    parseFailDemo defaultFlags.sparkApplicationURI = .error "invalid URI" ∧
    (mainModel parseFailDemo defaultFlags).listenerStarted = false :=
  ⟨rfl, (bad_uri_fatal_before_listen parseFailDemo defaultFlags "invalid URI"
    rfl).2.2.1⟩

/-- Claim C10: with no command-line flags the defaults are listen address
`:9110`, metrics path `/metrics`, upstream URI `http://localhost:4040` and a
5-second upstream timeout, and the metric namespace is the fixed string
`spark`. -/
theorem default_configuration :
    defaultFlags.listenAddress = ":9110" ∧
    defaultFlags.metricsPath = "/metrics" ∧
    defaultFlags.sparkApplicationURI = "http://localhost:4040" ∧
    defaultFlags.sparkTimeoutMs = 5 * secondMs ∧
    sparkNamespace = "spark" :=
  ⟨rfl, rfl, rfl, rfl, rfl⟩

end SparkExporter
